import Mathlib

/-!
# Verification of the booking relay middleware

Shallow embedding of the `dbmiddleware` relay service (three source variants:
`index.js`, `part_000` "enhanced 24/7 monitor", `part_001` "robust worker").
The service watches a remote collection of booking records, filters records
that entered a terminal status, deduplicates them through an in-memory set,
forwards them to an HTTP sink with retries, and deletes them from the source
on confirmed acceptance.

JavaScript field values are modelled by `JVal` (absent fields are `.undef`);
JS truthiness (`!x`, `x || d`) is modelled by `truthy`/`jsOr`; the dedup
`Set` is a duplicate-free list in insertion order (oldest first).
-/

namespace DbMiddleware

/-- A JavaScript value as it can appear in a booking field: absent
(`undefined`), `null`, a string, an integer number, or a boolean. -/
inductive JVal where
  | undef
  | null
  | str (s : String)
  | num (n : Int)
  | bool (b : Bool)
deriving DecidableEq, Repr

/-- JavaScript truthiness of a `JVal`: `undefined`, `null`, `""`, `0` and
`false` are falsy, everything else is truthy. -/
def truthy : JVal → Bool
  | .undef => false
  | .null => false
  | .str s => !(s == "")
  | .num n => !(n == 0)
  | .bool b => b

/-- JavaScript `v || d`: the left operand if truthy, otherwise the default. -/
def jsOr (v d : JVal) : JVal :=
  if truthy v then v else d

/-- A raw booking record as read from the remote store.  Every field is a
JS value; a field the record does not carry is `.undef`. -/
structure Booking where
  assignedRider : JVal := .undef
  auto_cancel_at : JVal := .undef
  booked_at : JVal := .undef
  booked_at_timestamp : JVal := .undef
  bookingId : JVal := .undef
  booking_status : JVal := .undef
  plate_number : JVal := .undef
  destinationCoordinates : JVal := .undef
  expires_at : JVal := .undef
  fare : JVal := .undef
  luggageCount : JVal := .undef
  numberofPassengers : JVal := .undef
  passengerId : JVal := .undef
  passengerName : JVal := .undef
  paymentMethod : JVal := .undef
  pickupCoordinates : JVal := .undef
  ratings : JVal := .undef
deriving DecidableEq, Repr

/-- The normalized payload (`cleanedBooking` in `index.js` / `part_000`)
that is POSTed to the sink. -/
structure Payload where
  assignedRider : JVal
  auto_cancel_at : JVal
  booked_at : JVal
  booked_at_timestamp : JVal
  bookingId : JVal
  booking_status : JVal
  plate_number : JVal
  destinationCoordinates : JVal
  expires_at : JVal
  fare : JVal
  luggageCount : JVal
  numberofPassengers : JVal
  passengerId : JVal
  passengerName : JVal
  paymentMethod : JVal
  pickupCoordinates : JVal
  ratings : JVal
deriving DecidableEq, Repr

/-- The payload normalization of `sendToLaravelAndDelete`
(`index.js` lines 116-134, `part_000` lines 205-223): every nullable
attribute is `booking.x || null`, the numeric fields are `|| 0`,
`numberofPassengers` is `|| "1"` and `paymentMethod` is `|| "Cash"`;
`bookingId` and `booking_status` are forwarded unchanged. -/
def cleanedBooking (b : Booking) : Payload where
  assignedRider := jsOr b.assignedRider .null
  auto_cancel_at := jsOr b.auto_cancel_at .null
  booked_at := jsOr b.booked_at .null
  booked_at_timestamp := jsOr b.booked_at_timestamp .null
  bookingId := b.bookingId
  booking_status := b.booking_status
  plate_number := jsOr b.plate_number .null
  destinationCoordinates := jsOr b.destinationCoordinates .null
  expires_at := jsOr b.expires_at .null
  fare := jsOr b.fare (.num 0)
  luggageCount := jsOr b.luggageCount (.num 0)
  numberofPassengers := jsOr b.numberofPassengers (.str "1")
  passengerId := jsOr b.passengerId .null
  passengerName := jsOr b.passengerName .null
  paymentMethod := jsOr b.paymentMethod (.str "Cash")
  pickupCoordinates := jsOr b.pickupCoordinates .null
  ratings := jsOr b.ratings .null

/-- The terminal status set (`targetStatuses` in all three variants). -/
def targetStatuses : List String := ["Cancelled", "Complete", "Completed"]

/-- `targetStatuses.includes(booking.booking_status)`: JS `includes` uses
strict equality, so only a string value can match. -/
def includesStatus : JVal → Bool
  | .str s => targetStatuses.contains s
  | _ => false

/-- The decision of the eligibility filter, with the reasons the source
reports (`shouldProcessBooking` in `index.js` lines 36-56 and `part_000`
lines 113-133). -/
inductive Decision where
  | invalidRecord
  | missingId
  | alreadyProcessed
  | statusNotTerminal (observed : JVal)
  | eligible
deriving DecidableEq, Repr

/-- `shouldProcessBooking(booking)`: a record that is absent or not an
object is invalid; a falsy `bookingId` is a missing id; an id already in
the `processedBookings` set is already processed; a status outside the
terminal set is not terminal; otherwise the record is eligible.  The rules
are applied in this order, first match wins. -/
def shouldProcessBooking (cache : List JVal) (raw : Option Booking) : Decision :=
  match raw with
  | none => .invalidRecord
  | some b =>
    if truthy b.bookingId = false then .missingId
    else if b.bookingId ∈ cache then .alreadyProcessed
    else if includesStatus b.booking_status = false then .statusNotTerminal b.booking_status
    else .eligible

/-- `shouldProcess(booking)` of `part_001` (lines 192-198): the same rules
collapsed to a boolean. -/
def shouldProcess (cache : List JVal) (raw : Option Booking) : Bool :=
  match raw with
  | none => false
  | some b =>
    if truthy b.bookingId = false then false
    else if b.bookingId ∈ cache then false
    else includesStatus b.booking_status

/-- Runtime configuration read from the environment at startup:
`NODE_ENV === 'production'` and `DELETE_FIREBASE_RECORDS === 'true'`. -/
structure Config where
  isProduction : Bool
  deleteOverride : Bool
deriving DecidableEq, Repr

/-- HTTP `response.ok`: status in the 2xx range. -/
def is2xx (status : Nat) : Bool := decide (200 ≤ status ∧ status < 300)

/-- `processedBookings.add(id)`: a JS `Set` keeps insertion order and
ignores an insert of an element that is already present. -/
def addMark (id : JVal) (cache : List JVal) : List JVal :=
  if id ∈ cache then cache else cache ++ [id]

/-- Observable actions of one delivery lifecycle, in program order. -/
inductive Event where
  | mark (id : JVal)
  | post (payload : Payload) (retryCount : Nat)
  | waitDelay (ms : Nat)
  | deleteRecord (id : JVal)
  | unmark (id : JVal)
deriving DecidableEq, Repr

/-- The mutable state touched by `sendToLaravelAndDelete` in `part_000`:
the dedup set, whether the record is still in the remote store, and the
`totalProcessedCount` counter. -/
structure DeliveryState where
  cache : List JVal
  storePresent : Bool
  totalProcessedCount : Nat
deriving DecidableEq, Repr

/-- One recursion level of `sendToLaravelAndDelete` (`part_000` lines
195-331), over a sink modelled as the HTTP status returned at each attempt
(`sink retryCount`).  Each attempt first adds the id to the dedup set, then
POSTs the normalized payload.  On 2xx the counter is bumped and the record
is deleted iff production mode or the delete override is set.  On a 5xx
with `retryCount < MAX_RETRIES` the call reschedules itself after
`(retryCount + 1) * 2000` ms.  Any other failure removes the dedup entry
and gives up.  `fuel` bounds the recursion; the wrapper passes
`maxRetries + 1`, which is never exhausted. -/
def runSend (cfg : Config) (sink : Nat → Nat) (maxRetries : Nat) (b : Booking) :
    Nat → Nat → DeliveryState → DeliveryState × List Event
  | 0, _, st => (st, [])
  | fuel + 1, rc, st =>
    let st1 : DeliveryState := { st with cache := addMark b.bookingId st.cache }
    let status := sink rc
    if is2xx status then
      let st2 : DeliveryState := { st1 with totalProcessedCount := st1.totalProcessedCount + 1 }
      if cfg.isProduction || cfg.deleteOverride then
        ({ st2 with storePresent := false },
          [.mark b.bookingId, .post (cleanedBooking b) rc, .deleteRecord b.bookingId])
      else
        (st2, [.mark b.bookingId, .post (cleanedBooking b) rc])
    else if 500 ≤ status ∧ rc < maxRetries then
      let r := runSend cfg sink maxRetries b fuel (rc + 1) st1
      (r.1, .mark b.bookingId :: .post (cleanedBooking b) rc ::
        .waitDelay ((rc + 1) * 2000) :: r.2)
    else
      ({ st1 with cache := st1.cache.erase b.bookingId },
        [.mark b.bookingId, .post (cleanedBooking b) rc, .unmark b.bookingId])

/-- `sendToLaravelAndDelete(booking, firebaseKey)` of `part_000`, entered
with `retryCount = 0`.  (`index.js` is the same handler with
`MAX_RETRIES = 0`: no retry, any failure unmarks.) -/
def sendToLaravelAndDelete (cfg : Config) (sink : Nat → Nat) (maxRetries : Nat)
    (b : Booking) (st : DeliveryState) : DeliveryState × List Event :=
  runSend cfg sink maxRetries b (maxRetries + 1) 0 st

/-- The orchestrator step shared by the initial scan and the live
`onChildChanged` listener: run the filter, and hand an eligible record to
`sendToLaravelAndDelete`; any ineligible record is skipped with no
observable action. -/
def handleNotification (cfg : Config) (sink : Nat → Nat) (maxRetries : Nat)
    (raw : Option Booking) (st : DeliveryState) : DeliveryState × List Event :=
  match raw with
  | none => (st, [])
  | some b =>
    if shouldProcessBooking st.cache (some b) = .eligible then
      sendToLaravelAndDelete cfg sink maxRetries b st
    else
      (st, [])

/-- Number of HTTP POSTs in an event trace. -/
def countPosts (evs : List Event) : Nat :=
  (evs.filter fun e => match e with | .post _ _ => true | _ => false).length

/-- The backoff delays recorded in an event trace, in order. -/
def delaysOf (evs : List Event) : List Nat :=
  evs.filterMap fun e => match e with | .waitDelay d => some d | _ => none

/-- The mutable state touched by `processBooking` in `part_001`. -/
structure WorkerState where
  cache : List JVal
  storePresent : Bool
  totalProcessed : Nat
  errorCount : Nat
  retryCount : Nat
deriving DecidableEq, Repr

/-- `processBooking(booking, firebaseKey)` of `part_001` (lines 118-189):
mark the id, POST once ( `ok` is `response.ok` of that attempt); on
success bump `totalProcessed` and delete the record iff `!isDev`, i.e. iff
production — the `DELETE_FIREBASE_RECORDS` override is not consulted in
this variant.  On any non-2xx response the call throws (returns
`false`). -/
def processBooking (cfg : Config) (ok : Bool) (st : WorkerState) (b : Booking) :
    WorkerState × Bool :=
  let st1 : WorkerState := { st with cache := addMark b.bookingId st.cache }
  if ok then
    let st2 : WorkerState := { st1 with totalProcessed := st1.totalProcessed + 1 }
    if cfg.isProduction then ({ st2 with storePresent := false }, true)
    else (st2, true)
  else
    (st1, false)

/-- Statistics of one `processBookingWithRetry` run: how many attempts were
made, the backoff delays between consecutive attempts, and whether the
record was finally delivered. -/
structure RunStats where
  attempts : Nat
  delays : List Nat
  succeeded : Bool
deriving DecidableEq, Repr

/-- The `for (attempt = 1; attempt <= maxRetries; attempt++)` loop of
`processBookingWithRetry` (`part_001` lines 93-115).  On failure of the
final attempt (`attempt === maxRetries`) the dedup entry is removed and
`errorCount` is bumped; otherwise the loop sleeps `2 ^ attempt * 1000` ms
and retries, bumping `retryCount`.  `fuel` is the number of remaining loop
iterations. -/
def retryLoop (cfg : Config) (sink : Nat → Nat) (maxRetries : Nat) (b : Booking) :
    Nat → Nat → WorkerState → WorkerState × RunStats
  | _, 0, st => (st, ⟨0, [], false⟩)
  | attempt, fuel + 1, st =>
    let res := processBooking cfg (is2xx (sink attempt)) st b
    if res.2 then
      (res.1, ⟨1, [], true⟩)
    else if attempt = maxRetries then
      ({ res.1 with cache := res.1.cache.erase b.bookingId,
                    errorCount := res.1.errorCount + 1 },
        ⟨1, [], false⟩)
    else
      let r := retryLoop cfg sink maxRetries b (attempt + 1) fuel
        { res.1 with retryCount := res.1.retryCount + 1 }
      (r.1, ⟨r.2.attempts + 1, 2 ^ attempt * 1000 :: r.2.delays, r.2.succeeded⟩)

/-- `processBookingWithRetry(booking, firebaseKey, maxRetries = 3)` of
`part_001`: the loop starts at attempt 1 and runs at most `maxRetries`
iterations. -/
def processBookingWithRetry (cfg : Config) (sink : Nat → Nat) (maxRetries : Nat)
    (b : Booking) (st : WorkerState) : WorkerState × RunStats :=
  retryLoop cfg sink maxRetries b 1 maxRetries st

/-- `MAX_RETRY_ATTEMPTS` of `part_000` (line 61). -/
def MAX_RETRY_ATTEMPTS : Nat := 5

/-- What the connection supervisor decides to do after a disconnection
tick: reset the counter and keep supervising, schedule a reconnection
after a delay, or terminate the process.  `part_000` never chooses
`exitProcess`; `part_001`'s health monitor does. -/
inductive SupAction where
  | resetAndContinue
  | scheduleReconnect (delayMs : Nat)
  | exitProcess
deriving DecidableEq, Repr

/-- `handleDisconnection()` of `part_000` (lines 93-110): bump
`connectionRetryCount`; past `MAX_RETRY_ATTEMPTS` reset it to 0 and return
without exiting; otherwise schedule a reconnection after
`min(1000 * 2 ^ count, 30000)` ms. -/
def handleDisconnection (connectionRetryCount : Nat) : Nat × SupAction :=
  if MAX_RETRY_ATTEMPTS < connectionRetryCount + 1 then (0, .resetAndContinue)
  else (connectionRetryCount + 1,
    .scheduleReconnect (min (1000 * 2 ^ (connectionRetryCount + 1)) 30000))

/-- The reconnection delay of `scheduleReconnection()` in `part_001`
(line 279): `min(30000, 5000 * 2 ^ min(retryCount, 4))` ms. -/
def scheduleReconnectionDelay (retryCount : Nat) : Nat :=
  min 30000 (5000 * 2 ^ min retryCount 4)

/-- One one-minute tick of the health-check interval in
`startRobustMonitoring()` of `part_001` (lines 329-346): while the
connection status is not `connected` the unhealthy counter grows, and on
reaching 10 the worker calls `process.exit(1)`; a connected tick resets
the counter.  Returns the new counter and whether the process exited. -/
def healthCheckTick (connected : Bool) (unhealthyCount : Nat) : Nat × Bool :=
  if connected then (0, false)
  else (unhealthyCount + 1, decide (10 ≤ unhealthyCount + 1))

/-- `n` consecutive health-check ticks with the connection down, starting
from a zero unhealthy counter; the flag records whether any tick exited
the process. -/
def runHealthTicks : Nat → Nat × Bool
  | 0 => (0, false)
  | n + 1 =>
    let p := runHealthTicks n
    let q := healthCheckTick false p.1
    (q.1, p.2 || q.2)

/-- One tick of `setupPeriodicCleanup()` in `part_000` (lines 334-351),
which runs hourly on its own timer: if the dedup set holds more than
`maxSize = 10000` ids, delete `size - 10000 * 0.8` entries in Set
iteration order, i.e. drop the oldest-inserted entries and keep the newest
8000. -/
def setupPeriodicCleanup (cache : List JVal) : List JVal :=
  if 10000 < cache.length then cache.drop (cache.length - 8000) else cache

/-- One tick of the 20-minute memory-management interval in
`startRobustMonitoring()` of `part_001` (lines 311-317): if the dedup set
holds more than 5000 ids, keep only the 2500 most recently inserted
(`[...processedBookings].slice(-2500)`). -/
def cleanCache (cache : List JVal) : List JVal :=
  if 5000 < cache.length then cache.drop (cache.length - 2500) else cache

/-- Does the character list `s` start with the pattern `pat`? -/
def startsWithPat : List Char → List Char → Bool
  | [], _ => true
  | _ :: _, [] => false
  | p :: ps, c :: cs => (p == c) && startsWithPat ps cs

/-- JS `s.includes(pat)` over character lists. -/
def hasSub (s pat : List Char) : Bool :=
  match s with
  | [] => startsWithPat pat []
  | c :: cs => startsWithPat pat (c :: cs) || hasSub cs pat

/-- `responseText.includes('<html') || responseText.includes('<!DOCTYPE')`
(`index.js` line 169, `part_000` line 264). -/
def looksLikeHtml (body : String) : Bool :=
  hasSub body.toList "<html".toList || hasSub body.toList "<!DOCTYPE".toList

/-- The `result` value the handler ends up with: the parsed structured
body, or the raw body wrapped as `{ message: responseText }`. -/
inductive ParsedResult where
  | json (body : String)
  | message (body : String)
deriving DecidableEq, Repr

/-- Outcome of response handling in `sendToLaravelAndDelete`. -/
inductive SendOutcome where
  | accepted (r : ParsedResult)
  | failureHtml
  | failureHttp (status : Nat) (r : ParsedResult)
deriving DecidableEq, Repr

/-- Response handling of `index.js` lines 159-197 / `part_000` lines
251-302: try `JSON.parse(responseText)` (`parses` says whether it
succeeds); on parse failure a body containing `<html` or `<!DOCTYPE` is
escalated by throwing — before `response.ok` is ever consulted — while any
other unparsable body is wrapped as `{ message: responseText }`; then a
2xx status is a success and anything else an HTTP failure. -/
def handleResponse (status : Nat) (parses : Bool) (body : String) : SendOutcome :=
  if parses then
    if is2xx status then .accepted (.json body) else .failureHttp status (.json body)
  else if looksLikeHtml body then .failureHtml
  else if is2xx status then .accepted (.message body)
  else .failureHttp status (.message body)

/-- The booking of the spec scenario: `{id: "B1", status: "Completed",
fare: 120}`. -/
def exampleB1 : Booking :=
  { bookingId := .str "B1", booking_status := .str "Completed", fare := .num 120 }

/-- A booking carrying nothing but the fields shown above left absent. -/
def emptyBooking : Booking := {}

/-- A fresh `part_001` worker state: empty dedup set, record still in the
store, all counters zero. -/
def freshWorker : WorkerState := ⟨[], true, 0, 0, 0⟩

/-- A fresh `part_000` delivery state. -/
def freshDelivery : DeliveryState := ⟨[], true, 0⟩

/-- Non-production configuration without the delete override. -/
def devConfig : Config := ⟨false, false⟩

/-- Production configuration without the delete override. -/
def prodConfig : Config := ⟨true, false⟩

/-- A booking whose present optional fields are all falsy: empty-string id,
zero fare, empty passenger count, null payment method. -/
def falsyBooking : Booking :=
  { bookingId := .str "", booking_status := .str "Completed", fare := .num 0,
    numberofPassengers := .str "", paymentMethod := .null }

lemma jsOr_ne_undef {v d : JVal} (hd : d ≠ .undef) : jsOr v d ≠ .undef := by
  unfold jsOr
  split
  · next h =>
    intro hv
    rw [hv] at h
    simp [truthy] at h
  · exact hd

lemma jsOr_of_undef {v : JVal} (d : JVal) (h : v = .undef) : jsOr v d = d := by
  rw [h]; rfl

lemma jsOr_of_not_truthy {v : JVal} (d : JVal) (h : truthy v = false) : jsOr v d = d := by
  unfold jsOr
  rw [h]
  rfl

lemma mem_addMark_self (id : JVal) (cache : List JVal) : id ∈ addMark id cache := by
  unfold addMark
  split
  · assumption
  · simp

lemma erase_addMark_of_not_mem {id : JVal} {cache : List JVal} (h : id ∉ cache) :
    (addMark id cache).erase id = cache := by
  unfold addMark
  rw [if_neg h, List.erase_append_right _ h, List.erase_cons_head, List.append_nil]

lemma is2xx_false_of_ge {s : Nat} (h : 300 ≤ s) : is2xx s = false := by
  simp only [is2xx, decide_eq_false_iff_not, not_and, not_lt]
  omega

lemma shouldProcessBooking_eligible_iff (cache : List JVal) (b : Booking) :
    shouldProcessBooking cache (some b) = .eligible ↔
      truthy b.bookingId = true ∧ b.bookingId ∉ cache ∧
        includesStatus b.booking_status = true := by
  unfold shouldProcessBooking
  by_cases h1 : truthy b.bookingId = false
  · simp [h1]
  · rw [Bool.not_eq_false] at h1
    by_cases h2 : b.bookingId ∈ cache
    · simp [h1, h2]
    · by_cases h3 : includesStatus b.booking_status = false
      · simp [h1, h2, h3]
      · rw [Bool.not_eq_false] at h3
        simp [h1, h2, h3]

/-- Claim C1: the eligibility decision applies its rules in order with the
first matching rule winning — an absent or non-object record is invalid, a
record with a falsy id has no identifiable id, an id already present in
the dedup cache is already processed regardless of status, a status
outside the terminal set is not terminal, and otherwise the record is
eligible; `part_001`'s boolean `shouldProcess` agrees with the eligible
case. -/
theorem c1_eligibility_first_match (cache : List JVal) (raw : Option Booking) :
    (shouldProcessBooking cache raw = Decision.eligible ↔
      ∃ b, raw = some b ∧ truthy b.bookingId = true ∧ b.bookingId ∉ cache ∧
        includesStatus b.booking_status = true) ∧
    (raw = none → shouldProcessBooking cache raw = Decision.invalidRecord) ∧
    (∀ b, raw = some b → truthy b.bookingId = false →
      shouldProcessBooking cache raw = Decision.missingId) ∧
    (∀ b, raw = some b → truthy b.bookingId = true → b.bookingId ∈ cache →
      shouldProcessBooking cache raw = Decision.alreadyProcessed) ∧
    (∀ b, raw = some b → truthy b.bookingId = true → b.bookingId ∉ cache →
      includesStatus b.booking_status = false →
      shouldProcessBooking cache raw = Decision.statusNotTerminal b.booking_status) ∧
    (∀ b, raw = some b → includesStatus b.booking_status = false →
      shouldProcessBooking cache raw ≠ Decision.eligible) ∧
    (shouldProcess cache raw = true ↔ shouldProcessBooking cache raw = Decision.eligible) := by
  rcases raw with _ | b
  · simp [shouldProcessBooking, shouldProcess]
  · by_cases h1 : truthy b.bookingId = false
    · simp [shouldProcessBooking, shouldProcess, h1]
    · rw [Bool.not_eq_false] at h1
      by_cases h2 : b.bookingId ∈ cache
      · simp [shouldProcessBooking, shouldProcess, h1, h2]
      · by_cases h3 : includesStatus b.booking_status = false
        · simp [shouldProcessBooking, shouldProcess, h1, h2, h3]
        · rw [Bool.not_eq_false] at h3
          simp [shouldProcessBooking, shouldProcess, h1, h2, h3]

theorem c1_eligibility_first_match_witness :
    shouldProcessBooking [JVal.str "B1"] (some exampleB1) = Decision.alreadyProcessed ∧
    shouldProcess [] (some exampleB1) = true := by
  constructor
  · exact (c1_eligibility_first_match [JVal.str "B1"] (some exampleB1)).2.2.2.1 exampleB1 rfl
      (by decide) (by decide)
  · exact ((c1_eligibility_first_match [] (some exampleB1)).2.2.2.2.2.2).mpr
      (((c1_eligibility_first_match [] (some exampleB1)).1).mpr
        ⟨exampleB1, rfl, by decide, by decide, by decide⟩)

/-- Claim C2: the delivery payload is built by normalization — every
optional attribute is forwarded with an explicit null default when absent
and is never omitted, the numeric fields `fare` and `luggageCount` default
to 0, `numberofPassengers` defaults to the string "1", `paymentMethod`
defaults to "Cash"; the record `{id: "B1", status: "Completed", fare: 120}`
yields a payload with `fare: 120`, `paymentMethod: "Cash"`,
`ratings: null`. -/
theorem c2_normalized_payload (b : Booking) :
    ((cleanedBooking b).assignedRider ≠ JVal.undef) ∧
    (b.assignedRider = JVal.undef → (cleanedBooking b).assignedRider = JVal.null) ∧
    ((cleanedBooking b).auto_cancel_at ≠ JVal.undef) ∧
    (b.auto_cancel_at = JVal.undef → (cleanedBooking b).auto_cancel_at = JVal.null) ∧
    ((cleanedBooking b).booked_at ≠ JVal.undef) ∧
    (b.booked_at = JVal.undef → (cleanedBooking b).booked_at = JVal.null) ∧
    ((cleanedBooking b).booked_at_timestamp ≠ JVal.undef) ∧
    (b.booked_at_timestamp = JVal.undef → (cleanedBooking b).booked_at_timestamp = JVal.null) ∧
    ((cleanedBooking b).plate_number ≠ JVal.undef) ∧
    (b.plate_number = JVal.undef → (cleanedBooking b).plate_number = JVal.null) ∧
    ((cleanedBooking b).destinationCoordinates ≠ JVal.undef) ∧
    (b.destinationCoordinates = JVal.undef → (cleanedBooking b).destinationCoordinates = JVal.null) ∧
    ((cleanedBooking b).expires_at ≠ JVal.undef) ∧
    (b.expires_at = JVal.undef → (cleanedBooking b).expires_at = JVal.null) ∧
    ((cleanedBooking b).passengerId ≠ JVal.undef) ∧
    (b.passengerId = JVal.undef → (cleanedBooking b).passengerId = JVal.null) ∧
    ((cleanedBooking b).passengerName ≠ JVal.undef) ∧
    (b.passengerName = JVal.undef → (cleanedBooking b).passengerName = JVal.null) ∧
    ((cleanedBooking b).pickupCoordinates ≠ JVal.undef) ∧
    (b.pickupCoordinates = JVal.undef → (cleanedBooking b).pickupCoordinates = JVal.null) ∧
    ((cleanedBooking b).ratings ≠ JVal.undef) ∧
    (b.ratings = JVal.undef → (cleanedBooking b).ratings = JVal.null) ∧
    ((cleanedBooking b).fare ≠ JVal.undef) ∧
    (b.fare = JVal.undef → (cleanedBooking b).fare = JVal.num 0) ∧
    ((cleanedBooking b).luggageCount ≠ JVal.undef) ∧
    (b.luggageCount = JVal.undef → (cleanedBooking b).luggageCount = JVal.num 0) ∧
    ((cleanedBooking b).numberofPassengers ≠ JVal.undef) ∧
    (b.numberofPassengers = JVal.undef → (cleanedBooking b).numberofPassengers = JVal.str "1") ∧
    ((cleanedBooking b).paymentMethod ≠ JVal.undef) ∧
    (b.paymentMethod = JVal.undef → (cleanedBooking b).paymentMethod = JVal.str "Cash") ∧
    (cleanedBooking exampleB1).fare = JVal.num 120 ∧
    (cleanedBooking exampleB1).paymentMethod = JVal.str "Cash" ∧
    (cleanedBooking exampleB1).ratings = JVal.null :=
  ⟨jsOr_ne_undef (by decide), fun h => jsOr_of_undef _ h,
   jsOr_ne_undef (by decide), fun h => jsOr_of_undef _ h,
   jsOr_ne_undef (by decide), fun h => jsOr_of_undef _ h,
   jsOr_ne_undef (by decide), fun h => jsOr_of_undef _ h,
   jsOr_ne_undef (by decide), fun h => jsOr_of_undef _ h,
   jsOr_ne_undef (by decide), fun h => jsOr_of_undef _ h,
   jsOr_ne_undef (by decide), fun h => jsOr_of_undef _ h,
   jsOr_ne_undef (by decide), fun h => jsOr_of_undef _ h,
   jsOr_ne_undef (by decide), fun h => jsOr_of_undef _ h,
   jsOr_ne_undef (by decide), fun h => jsOr_of_undef _ h,
   jsOr_ne_undef (by decide), fun h => jsOr_of_undef _ h,
   jsOr_ne_undef (by decide), fun h => jsOr_of_undef _ h,
   jsOr_ne_undef (by decide), fun h => jsOr_of_undef _ h,
   jsOr_ne_undef (by decide), fun h => jsOr_of_undef _ h,
   jsOr_ne_undef (by decide), fun h => jsOr_of_undef _ h,
   by decide, by decide, by decide⟩

theorem c2_normalized_payload_witness :
    (cleanedBooking emptyBooking).ratings = JVal.null ∧
    (cleanedBooking emptyBooking).fare = JVal.num 0 ∧
    (cleanedBooking emptyBooking).numberofPassengers = JVal.str "1" ∧
    (cleanedBooking emptyBooking).paymentMethod = JVal.str "Cash" := by
  obtain ⟨-, -, -, -, -, -, -, -, -, -, -, -, -, -, -, -, -, -, -, -, -, h22, -, h24,
    -, -, -, h28, -, h30, -, -, -⟩ := c2_normalized_payload emptyBooking
  exact ⟨h22 rfl, h24 rfl, h28 rfl, h30 rfl⟩

/-- Claim C10 (implicit): normalization replaces any falsy present value,
not only absent ones — a present but falsy optional attribute (0, empty
string, false, null) is replaced by its default — and a record whose id is
present but falsy is classified as having no identifiable id and is never
forwarded. -/
theorem c10_falsy_values_defaulted (b : Booking) (cache : List JVal) :
    (truthy b.assignedRider = false → (cleanedBooking b).assignedRider = JVal.null) ∧
    (truthy b.auto_cancel_at = false → (cleanedBooking b).auto_cancel_at = JVal.null) ∧
    (truthy b.booked_at = false → (cleanedBooking b).booked_at = JVal.null) ∧
    (truthy b.booked_at_timestamp = false → (cleanedBooking b).booked_at_timestamp = JVal.null) ∧
    (truthy b.plate_number = false → (cleanedBooking b).plate_number = JVal.null) ∧
    (truthy b.destinationCoordinates = false → (cleanedBooking b).destinationCoordinates = JVal.null) ∧
    (truthy b.expires_at = false → (cleanedBooking b).expires_at = JVal.null) ∧
    (truthy b.passengerId = false → (cleanedBooking b).passengerId = JVal.null) ∧
    (truthy b.passengerName = false → (cleanedBooking b).passengerName = JVal.null) ∧
    (truthy b.pickupCoordinates = false → (cleanedBooking b).pickupCoordinates = JVal.null) ∧
    (truthy b.ratings = false → (cleanedBooking b).ratings = JVal.null) ∧
    (truthy b.fare = false → (cleanedBooking b).fare = JVal.num 0) ∧
    (truthy b.luggageCount = false → (cleanedBooking b).luggageCount = JVal.num 0) ∧
    (truthy b.numberofPassengers = false → (cleanedBooking b).numberofPassengers = JVal.str "1") ∧
    (truthy b.paymentMethod = false → (cleanedBooking b).paymentMethod = JVal.str "Cash") ∧
    (truthy b.bookingId = false →
      shouldProcessBooking cache (some b) = Decision.missingId ∧
      shouldProcess cache (some b) = false) ∧
    truthy (JVal.str "") = false ∧ truthy (JVal.num 0) = false ∧
    truthy JVal.null = false ∧ truthy (JVal.bool false) = false :=
  ⟨fun h => jsOr_of_not_truthy _ h, fun h => jsOr_of_not_truthy _ h,
   fun h => jsOr_of_not_truthy _ h, fun h => jsOr_of_not_truthy _ h,
   fun h => jsOr_of_not_truthy _ h, fun h => jsOr_of_not_truthy _ h,
   fun h => jsOr_of_not_truthy _ h, fun h => jsOr_of_not_truthy _ h,
   fun h => jsOr_of_not_truthy _ h, fun h => jsOr_of_not_truthy _ h,
   fun h => jsOr_of_not_truthy _ h, fun h => jsOr_of_not_truthy _ h,
   fun h => jsOr_of_not_truthy _ h, fun h => jsOr_of_not_truthy _ h,
   fun h => jsOr_of_not_truthy _ h,
   fun h => ⟨by simp [shouldProcessBooking, h], by simp [shouldProcess, h]⟩,
   by decide, by decide, by decide, by decide⟩

theorem c10_falsy_values_defaulted_witness :
    shouldProcessBooking [] (some falsyBooking) = Decision.missingId ∧
    (cleanedBooking falsyBooking).fare = JVal.num 0 ∧
    (cleanedBooking falsyBooking).numberofPassengers = JVal.str "1" ∧
    (cleanedBooking falsyBooking).paymentMethod = JVal.str "Cash" := by
  obtain ⟨-, -, -, -, -, -, -, -, -, -, -, h12, -, h14, h15, h16, -, -, -, -⟩ :=
    c10_falsy_values_defaulted falsyBooking []
  exact ⟨(h16 (by decide)).1, h12 (by decide), h14 (by decide), h15 (by decide)⟩

/-- Claim C8: when the dedup cache exceeds its maximum (10000 in
`part_000`, 5000 in `part_001`), the periodic eviction pass (each runs on
its own `setInterval` timer, not inline on insert) drops the
oldest-inserted entries in pure insertion order — the survivors are a
suffix of the insertion-ordered cache — reducing the size to at most 80%
of the maximum: exactly 8000 for `part_000`, and 2500 (below the 4000
bound) for `part_001`; a cache at or below the maximum is untouched. -/
theorem c8_periodic_eviction (cache : List JVal) :
    (10000 < cache.length →
      (setupPeriodicCleanup cache).length = 8000 ∧
      List.IsSuffix (setupPeriodicCleanup cache) cache ∧
      (setupPeriodicCleanup cache).length ≤ 10000 * 8 / 10) ∧
    (cache.length ≤ 10000 → setupPeriodicCleanup cache = cache) ∧
    (5000 < cache.length →
      (cleanCache cache).length = 2500 ∧
      List.IsSuffix (cleanCache cache) cache ∧
      (cleanCache cache).length ≤ 5000 * 8 / 10) ∧
    (cache.length ≤ 5000 → cleanCache cache = cache) := by
  refine ⟨fun h => ?_, fun h => ?_, fun h => ?_, fun h => ?_⟩
  · unfold setupPeriodicCleanup
    rw [if_pos h]
    refine ⟨?_, List.drop_suffix _ _, ?_⟩
    · rw [List.length_drop]; omega
    · rw [List.length_drop]; omega
  · unfold setupPeriodicCleanup
    rw [if_neg (by omega)]
  · unfold cleanCache
    rw [if_pos h]
    refine ⟨?_, List.drop_suffix _ _, ?_⟩
    · rw [List.length_drop]; omega
    · rw [List.length_drop]; omega
  · unfold cleanCache
    rw [if_neg (by omega)]

theorem c8_periodic_eviction_witness :
    (setupPeriodicCleanup (List.replicate 10001 (JVal.str "x"))).length = 8000 ∧
    (cleanCache (List.replicate 5001 (JVal.str "x"))).length = 2500 := by
  constructor
  · exact ((c8_periodic_eviction (List.replicate 10001 (JVal.str "x"))).1
      (by rw [List.length_replicate]; decide)).1
  · exact (((c8_periodic_eviction (List.replicate 5001 (JVal.str "x"))).2.2.1
      (by rw [List.length_replicate]; decide)).1)

/-- Claim C9: a delivery response whose body cannot be parsed as JSON is
treated as an opaque message (`{ message: responseText }`), except that a
body containing `<html` or `<!DOCTYPE` is escalated to a failure before
the HTTP status is consulted — even a 2xx response with an HTML body is a
failure, never a success. -/
theorem c9_unparsable_body (status : Nat) (body : String) :
    (looksLikeHtml body = true → handleResponse status false body = SendOutcome.failureHtml) ∧
    (looksLikeHtml body = false → is2xx status = true →
      handleResponse status false body = SendOutcome.accepted (ParsedResult.message body)) ∧
    (looksLikeHtml body = false → is2xx status = false →
      handleResponse status false body = SendOutcome.failureHttp status (ParsedResult.message body)) ∧
    handleResponse 200 false "<html><body>Server Error</body></html>" = SendOutcome.failureHtml ∧
    is2xx 200 = true := by
  refine ⟨fun h => by simp [handleResponse, h],
    fun h1 h2 => by simp [handleResponse, h1, h2],
    fun h1 h2 => by simp [handleResponse, h1, h2],
    by decide, by decide⟩

theorem c9_unparsable_body_witness :
    handleResponse 200 false "<!DOCTYPE html>" = SendOutcome.failureHtml ∧
    handleResponse 200 false "OK" = SendOutcome.accepted (ParsedResult.message "OK") ∧
    handleResponse 503 false "oops" = SendOutcome.failureHttp 503 (ParsedResult.message "oops") := by
  refine ⟨(c9_unparsable_body 200 "<!DOCTYPE html>").1 (by decide),
    (c9_unparsable_body 200 "OK").2.1 (by decide) (by decide),
    (c9_unparsable_body 503 "oops").2.2.1 (by decide) (by decide)⟩

/-- Claim C6 (amended): the `part_000` supervisor never terminates the
process on connectivity failure — its backoff is
`min(1000 * 2 ^ count, 30000)` ms (base 1 s, doubling per consecutive
failure, capped at 30 s), and once the retry count passes
`MAX_RETRY_ATTEMPTS = 5` the counter resets and supervision simply
continues.  The `part_001` worker instead backs off with
`min(30000, 5000 * 2 ^ min(count, 4))` ms (base 5 s) and its health
monitor terminates the process after 10 consecutive unhealthy one-minute
intervals, while any shorter outage does not terminate it. -/
theorem c6_supervisor_behavior :
    (∀ n, (handleDisconnection n).2 ≠ SupAction.exitProcess) ∧
    (∀ n, MAX_RETRY_ATTEMPTS < n + 1 →
      handleDisconnection n = (0, SupAction.resetAndContinue)) ∧
    (∀ n, n + 1 ≤ MAX_RETRY_ATTEMPTS →
      handleDisconnection n =
        (n + 1, SupAction.scheduleReconnect (min (1000 * 2 ^ (n + 1)) 30000))) ∧
    (∀ n, min (1000 * 2 ^ (n + 1)) 30000 ≤ 30000 ∧
      scheduleReconnectionDelay n ≤ 30000) ∧
    scheduleReconnectionDelay 0 = 5000 ∧
    (runHealthTicks 10).2 = true ∧
    (∀ n < 10, (runHealthTicks n).2 = false) := by
  refine ⟨fun n => ?_, fun n h => ?_, fun n h => ?_, fun n => ⟨?_, ?_⟩, by decide, by decide,
    by decide⟩
  · unfold handleDisconnection
    split <;> simp
  · unfold handleDisconnection
    rw [if_pos h]
  · unfold handleDisconnection
    rw [if_neg (by omega)]
  · exact Nat.min_le_right _ _
  · exact Nat.min_le_left _ _

theorem c6_supervisor_behavior_witness :
    handleDisconnection 0 = (1, SupAction.scheduleReconnect 2000) ∧
    handleDisconnection 5 = (0, SupAction.resetAndContinue) := by
  constructor
  · have h := (c6_supervisor_behavior).2.2.1 0 (by decide)
    simpa using h
  · exact (c6_supervisor_behavior).2.1 5 (by decide)

/-- Claim C6 counterexample: the claim says the supervision never
terminates the process on connectivity failure, but the health monitor of
`part_001` (`startRobustMonitoring`, lines 329-346) calls
`process.exit(1)` once the connection status has been unhealthy for 10
consecutive one-minute intervals: starting from a healthy counter, 10
connection-down ticks end in a process exit. -/
theorem c6_counterexample : (runHealthTicks 10).2 = true := by decide

lemma processBooking_snd (cfg : Config) (ok : Bool) (st : WorkerState) (b : Booking) :
    (processBooking cfg ok st b).2 = ok := by
  cases ok <;> by_cases hp : cfg.isProduction = true <;> simp [processBooking, hp]

lemma addMark_idem (id : JVal) (c : List JVal) :
    addMark id (addMark id c) = addMark id c := by
  unfold addMark
  split
  · rfl
  · rw [if_pos (by simp)]

lemma runSend_storePresent_of_fail (cfg : Config) (sink : Nat → Nat) (maxRetries : Nat)
    (b : Booking) (hfail : ∀ a, is2xx (sink a) = false) :
    ∀ fuel rc st, (runSend cfg sink maxRetries b fuel rc st).1.storePresent
      = st.storePresent := by
  intro fuel
  induction fuel with
  | zero => intro rc st; rfl
  | succ n ih =>
    intro rc st
    simp only [runSend]
    rw [hfail rc, if_neg Bool.false_ne_true]
    split
    · exact ih (rc + 1) _
    · rfl

lemma retryLoop_storePresent_of_fail (cfg : Config) (sink : Nat → Nat) (maxRetries : Nat)
    (b : Booking) (hfail : ∀ a, is2xx (sink a) = false) :
    ∀ fuel attempt st, (retryLoop cfg sink maxRetries b attempt fuel st).1.storePresent
      = st.storePresent := by
  intro fuel
  induction fuel with
  | zero => intro attempt st; rfl
  | succ n ih =>
    intro attempt st
    simp only [retryLoop]
    rw [processBooking_snd, hfail attempt, if_neg Bool.false_ne_true]
    split
    · rfl
    · exact ih (attempt + 1) _

lemma retryLoop_always_fail (cfg : Config) (sink : Nat → Nat) (maxRetries : Nat)
    (b : Booking) (hfail : ∀ a, is2xx (sink a) = false) :
    ∀ fuel attempt st, attempt + fuel = maxRetries + 1 → 1 ≤ fuel →
      (retryLoop cfg sink maxRetries b attempt fuel st).2.attempts = fuel ∧
      (retryLoop cfg sink maxRetries b attempt fuel st).2.delays =
        (List.range' attempt (fuel - 1)).map (fun a => 2 ^ a * 1000) ∧
      (retryLoop cfg sink maxRetries b attempt fuel st).2.succeeded = false ∧
      (retryLoop cfg sink maxRetries b attempt fuel st).1.cache =
        (addMark b.bookingId st.cache).erase b.bookingId := by
  intro fuel
  induction fuel with
  | zero => intro attempt st _ h1; omega
  | succ n ih =>
    intro attempt st hsum _
    simp only [retryLoop]
    rw [processBooking_snd, hfail attempt, if_neg Bool.false_ne_true]
    rcases Nat.eq_zero_or_pos n with hn | hn
    · subst hn
      rw [if_pos (by omega : attempt = maxRetries)]
      refine ⟨rfl, by simp, rfl, ?_⟩
      show ((processBooking cfg false st b).1.cache).erase b.bookingId = _
      rfl
    · rw [if_neg (by omega : ¬attempt = maxRetries)]
      have hrec := ih (attempt + 1)
        { (processBooking cfg false st b).1 with
          retryCount := (processBooking cfg false st b).1.retryCount + 1 }
        (by omega) (by omega)
      refine ⟨?_, ?_, ?_, ?_⟩
      · simp only
        rw [hrec.1]
      · simp only
        rw [hrec.2.1]
        rw [show n + 1 - 1 = (n - 1) + 1 from by omega, List.range'_succ, List.map_cons]
      · exact hrec.2.2.1
      · simp only
        rw [hrec.2.2.2]
        show (addMark b.bookingId (addMark b.bookingId st.cache)).erase _ = _
        rw [addMark_idem]

lemma countPosts_cons_mark (id : JVal) (evs : List Event) :
    countPosts (Event.mark id :: evs) = countPosts evs := by
  simp [countPosts, List.filter_cons]

lemma countPosts_cons_post (p : Payload) (rc : Nat) (evs : List Event) :
    countPosts (Event.post p rc :: evs) = countPosts evs + 1 := by
  simp [countPosts, List.filter_cons]

lemma countPosts_cons_wait (d : Nat) (evs : List Event) :
    countPosts (Event.waitDelay d :: evs) = countPosts evs := by
  simp [countPosts, List.filter_cons]

lemma delaysOf_cons_mark (id : JVal) (evs : List Event) :
    delaysOf (Event.mark id :: evs) = delaysOf evs := by
  simp [delaysOf, List.filterMap_cons]

lemma delaysOf_cons_post (p : Payload) (rc : Nat) (evs : List Event) :
    delaysOf (Event.post p rc :: evs) = delaysOf evs := by
  simp [delaysOf, List.filterMap_cons]

lemma delaysOf_cons_wait (d : Nat) (evs : List Event) :
    delaysOf (Event.waitDelay d :: evs) = d :: delaysOf evs := by
  simp [delaysOf, List.filterMap_cons]

lemma one_le_countPosts_runSend (cfg : Config) (sink : Nat → Nat) (maxRetries : Nat)
    (b : Booking) :
    ∀ fuel rc st, 1 ≤ fuel → 1 ≤ countPosts (runSend cfg sink maxRetries b fuel rc st).2 := by
  intro fuel
  cases fuel with
  | zero => intro rc st h; omega
  | succ n =>
    intro rc st _
    simp only [runSend]
    split
    · split <;> simp [countPosts, List.filter_cons]
    · split <;> simp [countPosts, List.filter_cons]

lemma runSend_always_5xx (cfg : Config) (sink : Nat → Nat) (maxRetries : Nat)
    (b : Booking) (h5 : ∀ a, 500 ≤ sink a) :
    ∀ fuel rc st, rc + fuel = maxRetries + 1 → 1 ≤ fuel →
      countPosts (runSend cfg sink maxRetries b fuel rc st).2 = fuel ∧
      delaysOf (runSend cfg sink maxRetries b fuel rc st).2 =
        (List.range' rc (fuel - 1)).map (fun a => (a + 1) * 2000) ∧
      (runSend cfg sink maxRetries b fuel rc st).1.cache =
        (addMark b.bookingId st.cache).erase b.bookingId := by
  intro fuel
  induction fuel with
  | zero => intro rc st _ h1; omega
  | succ n ih =>
    intro rc st hsum _
    simp only [runSend]
    rw [is2xx_false_of_ge (by have := h5 rc; omega), if_neg Bool.false_ne_true]
    rcases Nat.eq_zero_or_pos n with hn | hn
    · subst hn
      rw [if_neg (by omega : ¬(500 ≤ sink rc ∧ rc < maxRetries))]
      refine ⟨?_, ?_, rfl⟩
      · rw [countPosts_cons_mark, countPosts_cons_post]
        simp [countPosts]
      · rw [delaysOf_cons_mark, delaysOf_cons_post]
        simp [delaysOf]
    · rw [if_pos ⟨h5 rc, by omega⟩]
      have hrec := ih (rc + 1) { st with cache := addMark b.bookingId st.cache }
        (by omega) (by omega)
      refine ⟨?_, ?_, ?_⟩
      · simp only
        rw [countPosts_cons_mark, countPosts_cons_post, countPosts_cons_wait, hrec.1]
      · simp only
        rw [delaysOf_cons_mark, delaysOf_cons_post, delaysOf_cons_wait, hrec.2.1]
        rw [Nat.add_sub_cancel, show n = n - 1 + 1 from by omega, List.range'_succ,
          List.map_cons, Nat.add_sub_cancel]
      · simp only
        rw [hrec.2.2]
        show (addMark b.bookingId (addMark b.bookingId st.cache)).erase _ = _
        rw [addMark_idem]

lemma shouldProcessBooking_of_mem {cache : List JVal} {b : Booking}
    (hid : truthy b.bookingId = true) (hmem : b.bookingId ∈ cache) :
    shouldProcessBooking cache (some b) = Decision.alreadyProcessed := by
  simp [shouldProcessBooking, hid, hmem]

/-- Claim C3 (amended): against a sink that always answers HTTP 503, the
retry loop of `part_001` makes exactly `maxRetries` attempts (default 3 —
not `1 + MAX_RETRIES`) with exponential backoff delays of
`2 ^ attempt * 1000` ms between consecutive attempts, and unmarks the
dedup entry after the last attempt; the rescheduling variant of `part_000`
makes `1 + MAX_RETRIES = 4` attempts, but with linearly growing delays
`(retryCount + 1) * 2000` ms, and likewise unmarks the entry. -/
theorem c3_retry_bound (cfg : Config) (b : Booking) (st : WorkerState) (dst : DeliveryState)
    (h1 : b.bookingId ∉ st.cache) (h2 : b.bookingId ∉ dst.cache) :
    (processBookingWithRetry cfg (fun _ => 503) 3 b st).2.attempts = 3 ∧
    (processBookingWithRetry cfg (fun _ => 503) 3 b st).2.delays =
      [2 ^ 1 * 1000, 2 ^ 2 * 1000] ∧
    (processBookingWithRetry cfg (fun _ => 503) 3 b st).2.succeeded = false ∧
    b.bookingId ∉ (processBookingWithRetry cfg (fun _ => 503) 3 b st).1.cache ∧
    countPosts (sendToLaravelAndDelete cfg (fun _ => 503) 3 b dst).2 = 1 + 3 ∧
    delaysOf (sendToLaravelAndDelete cfg (fun _ => 503) 3 b dst).2 =
      [(0 + 1) * 2000, (1 + 1) * 2000, (2 + 1) * 2000] ∧
    b.bookingId ∉ (sendToLaravelAndDelete cfg (fun _ => 503) 3 b dst).1.cache := by
  have hfail : ∀ a : Nat, is2xx ((fun _ : Nat => 503) a) = false := fun _ => rfl
  have h5 : ∀ a : Nat, 500 ≤ (fun _ : Nat => 503) a := fun _ => by
    show (500 : Nat) ≤ 503
    decide
  have hp1 := retryLoop_always_fail cfg (fun _ => 503) 3 b hfail 3 1 st (by omega) (by omega)
  have hp0 := runSend_always_5xx cfg (fun _ => 503) 3 b h5 4 0 dst (by omega) (by omega)
  have hc1 : (processBookingWithRetry cfg (fun _ => 503) 3 b st).1.cache = st.cache := by
    rw [show processBookingWithRetry cfg (fun _ => 503) 3 b st =
      retryLoop cfg (fun _ => 503) 3 b 1 3 st from rfl, hp1.2.2.2,
      erase_addMark_of_not_mem h1]
  have hc0 : (sendToLaravelAndDelete cfg (fun _ => 503) 3 b dst).1.cache = dst.cache := by
    rw [show sendToLaravelAndDelete cfg (fun _ => 503) 3 b dst =
      runSend cfg (fun _ => 503) 3 b 4 0 dst from rfl, hp0.2.2,
      erase_addMark_of_not_mem h2]
  refine ⟨hp1.1, hp1.2.1.trans (by decide), hp1.2.2.1, ?_, hp0.1, hp0.2.1.trans (by decide), ?_⟩
  · rw [hc1]; exact h1
  · rw [hc0]; exact h2

theorem c3_retry_bound_witness :
    (processBookingWithRetry devConfig (fun _ => 503) 3 exampleB1 freshWorker).2.attempts = 3 ∧
    (processBookingWithRetry devConfig (fun _ => 503) 3 exampleB1 freshWorker).2.delays =
      [2 ^ 1 * 1000, 2 ^ 2 * 1000] ∧
    countPosts (sendToLaravelAndDelete devConfig (fun _ => 503) 3 exampleB1 freshDelivery).2
      = 1 + 3 := by
  have h := c3_retry_bound devConfig exampleB1 freshWorker freshDelivery (by decide) (by decide)
  exact ⟨h.1, h.2.1, h.2.2.2.2.1⟩

/-- Claim C3 counterexample: the claim says delivery makes exactly
`1 + MAX_RETRIES = 4` attempts against an always-503 sink, but the retry
loop of `part_001` (`processBookingWithRetry`, default `maxRetries = 3`)
makes exactly 3 attempts in total for the concrete record
`{id: "B1", status: "Completed", fare: 120}`. -/
theorem c3_counterexample :
    (processBookingWithRetry devConfig (fun _ => 503) 3 exampleB1 freshWorker).2.attempts = 3 ∧
    ¬(processBookingWithRetry devConfig (fun _ => 503) 3 exampleB1 freshWorker).2.attempts
      = 1 + 3 := by
  exact ⟨by decide, by decide⟩

/-- Claim C4 (amended): in the `index.js`/`part_000` handler an accepted
record is deleted from the source iff production mode or the
`DELETE_FIREBASE_RECORDS` override is set, while the `part_001` worker
deletes iff production mode alone, ignoring the override; in every
variant, a record whose delivery fails is never deleted from the
source. -/
theorem c4_deletion_gating :
    (∀ (cfg : Config) (sink : Nat → Nat) (maxRetries : Nat) (b : Booking) (st : DeliveryState),
      st.storePresent = true → is2xx (sink 0) = true →
      ((sendToLaravelAndDelete cfg sink maxRetries b st).1.storePresent = false ↔
        (cfg.isProduction || cfg.deleteOverride) = true)) ∧
    (∀ (cfg : Config) (sink : Nat → Nat) (maxRetries : Nat) (b : Booking) (st : DeliveryState),
      st.storePresent = true → (∀ a, is2xx (sink a) = false) →
      (sendToLaravelAndDelete cfg sink maxRetries b st).1.storePresent = true) ∧
    (∀ (cfg : Config) (ok : Bool) (st : WorkerState) (b : Booking),
      st.storePresent = true →
      ((processBooking cfg ok st b).1.storePresent = false ↔
        ok = true ∧ cfg.isProduction = true)) ∧
    (∀ (cfg : Config) (sink : Nat → Nat) (maxRetries : Nat) (b : Booking) (st : WorkerState),
      st.storePresent = true → (∀ a, is2xx (sink a) = false) →
      (processBookingWithRetry cfg sink maxRetries b st).1.storePresent = true) := by
  refine ⟨?_, ?_, ?_, ?_⟩
  · intro cfg sink maxRetries b st hst hok
    show ((runSend cfg sink maxRetries b (maxRetries + 1) 0 st).1.storePresent = false ↔ _)
    simp only [runSend]
    rw [hok, if_pos rfl]
    cases hp : cfg.isProduction || cfg.deleteOverride
    · rw [if_neg Bool.false_ne_true]
      simp [hst]
    · rw [if_pos rfl]
      simp
  · intro cfg sink maxRetries b st hst hfail
    exact (runSend_storePresent_of_fail cfg sink maxRetries b hfail
      (maxRetries + 1) 0 st).trans hst
  · intro cfg ok st b hst
    cases ok <;> cases hpr : cfg.isProduction <;> simp [processBooking, hpr, hst]
  · intro cfg sink maxRetries b st hst hfail
    exact (retryLoop_storePresent_of_fail cfg sink maxRetries b hfail
      maxRetries 1 st).trans hst

theorem c4_deletion_gating_witness :
    (sendToLaravelAndDelete prodConfig (fun _ => 200) 3 exampleB1 freshDelivery).1.storePresent
      = false ∧
    (sendToLaravelAndDelete devConfig (fun _ => 200) 3 exampleB1 freshDelivery).1.storePresent
      = true ∧
    (sendToLaravelAndDelete devConfig (fun _ => 503) 3 exampleB1 freshDelivery).1.storePresent
      = true := by
  refine ⟨(c4_deletion_gating.1 prodConfig (fun _ => 200) 3 exampleB1 freshDelivery rfl
      rfl).mpr rfl, ?_,
    c4_deletion_gating.2.1 devConfig (fun _ => 503) 3 exampleB1 freshDelivery rfl
      (fun a => rfl)⟩
  have h := c4_deletion_gating.1 devConfig (fun _ => 200) 3 exampleB1 freshDelivery rfl rfl
  rw [show (devConfig.isProduction || devConfig.deleteOverride) = false from rfl] at h
  simpa using h

/-- Claim C4 counterexample: with `NODE_ENV` non-production and
`DELETE_FIREBASE_RECORDS = 'true'`, an accepted delivery through
`part_001`'s `processBooking` leaves the record in the source store —
deletion there is gated on production mode alone, so the claimed
"deleted iff production or override" equivalence fails on the override
side. -/
theorem c4_counterexample :
    Config.isProduction ⟨false, true⟩ = false ∧
    Config.deleteOverride ⟨false, true⟩ = true ∧
    (processBookingWithRetry ⟨false, true⟩ (fun _ => 200) 3 exampleB1 freshWorker).2.succeeded
      = true ∧
    (processBookingWithRetry ⟨false, true⟩ (fun _ => 200) 3 exampleB1 freshWorker).1.storePresent
      = true := by
  exact ⟨rfl, rfl, by decide, by decide⟩

/-- Claim C5 (amended): in the `part_000` handler a 5xx response with
retries remaining triggers a retry (at least a second POST) while a 4xx
response is never retried — exactly one POST, after which the dedup entry
is removed; in the `part_001` worker every non-2xx response throws and is
retried alike, so a 4xx status also produces the full `maxRetries`
attempts. -/
theorem c5_failure_classification :
    (∀ (cfg : Config) (sink : Nat → Nat) (maxRetries : Nat) (b : Booking) (st : DeliveryState),
      1 ≤ maxRetries → 500 ≤ sink 0 →
      2 ≤ countPosts (sendToLaravelAndDelete cfg sink maxRetries b st).2) ∧
    (∀ (cfg : Config) (sink : Nat → Nat) (maxRetries : Nat) (b : Booking) (st : DeliveryState),
      400 ≤ sink 0 → sink 0 < 500 →
      countPosts (sendToLaravelAndDelete cfg sink maxRetries b st).2 = 1) ∧
    (∀ (cfg : Config) (sink : Nat → Nat) (maxRetries : Nat) (b : Booking) (st : DeliveryState),
      400 ≤ sink 0 → sink 0 < 500 → b.bookingId ∉ st.cache →
      (sendToLaravelAndDelete cfg sink maxRetries b st).1.cache = st.cache) ∧
    (∀ (cfg : Config) (status : Nat) (b : Booking) (st : WorkerState),
      400 ≤ status → status < 500 →
      (processBookingWithRetry cfg (fun _ => status) 3 b st).2.attempts = 3) := by
  refine ⟨?_, ?_, ?_, ?_⟩
  · intro cfg sink maxRetries b st hmr h500
    show 2 ≤ countPosts (runSend cfg sink maxRetries b (maxRetries + 1) 0 st).2
    simp only [runSend]
    rw [is2xx_false_of_ge (by omega), if_neg Bool.false_ne_true,
      if_pos (⟨h500, by omega⟩ : 500 ≤ sink 0 ∧ 0 < maxRetries)]
    simp only
    rw [countPosts_cons_mark, countPosts_cons_post, countPosts_cons_wait]
    have := one_le_countPosts_runSend cfg sink maxRetries b maxRetries (0 + 1)
      { st with cache := addMark b.bookingId st.cache } (by omega)
    omega
  · intro cfg sink maxRetries b st h400 hlt
    show countPosts (runSend cfg sink maxRetries b (maxRetries + 1) 0 st).2 = 1
    simp only [runSend]
    rw [is2xx_false_of_ge (by omega), if_neg Bool.false_ne_true,
      if_neg (by omega : ¬(500 ≤ sink 0 ∧ 0 < maxRetries))]
    rw [countPosts_cons_mark, countPosts_cons_post]
    simp [countPosts]
  · intro cfg sink maxRetries b st h400 hlt hmem
    show (runSend cfg sink maxRetries b (maxRetries + 1) 0 st).1.cache = st.cache
    simp only [runSend]
    rw [is2xx_false_of_ge (by omega), if_neg Bool.false_ne_true,
      if_neg (by omega : ¬(500 ≤ sink 0 ∧ 0 < maxRetries))]
    show (addMark b.bookingId st.cache).erase b.bookingId = st.cache
    exact erase_addMark_of_not_mem hmem
  · intro cfg status b st h400 hlt
    have hfail : ∀ a : Nat, is2xx ((fun _ : Nat => status) a) = false :=
      fun _ => is2xx_false_of_ge (by omega : (300 : Nat) ≤ status)
    exact (retryLoop_always_fail cfg (fun _ => status) 3 b hfail 3 1 st
      (by omega) (by omega)).1

theorem c5_failure_classification_witness :
    2 ≤ countPosts (sendToLaravelAndDelete devConfig (fun _ => 503) 3 exampleB1
      freshDelivery).2 ∧
    countPosts (sendToLaravelAndDelete devConfig (fun _ => 404) 3 exampleB1
      freshDelivery).2 = 1 ∧
    (sendToLaravelAndDelete devConfig (fun _ => 404) 3 exampleB1 freshDelivery).1.cache
      = [] ∧
    (processBookingWithRetry devConfig (fun _ => 404) 3 exampleB1 freshWorker).2.attempts
      = 3 := by
  refine ⟨c5_failure_classification.1 devConfig (fun _ => 503) 3 exampleB1 freshDelivery
      (by decide) (by decide),
    c5_failure_classification.2.1 devConfig (fun _ => 404) 3 exampleB1 freshDelivery
      (by decide) (by decide),
    c5_failure_classification.2.2.1 devConfig (fun _ => 404) 3 exampleB1 freshDelivery
      (by decide) (by decide) (by decide),
    c5_failure_classification.2.2.2 devConfig 404 exampleB1 freshWorker
      (by decide) (by decide)⟩

/-- Claim C5 counterexample: the claim says a 4xx response is never
retried, but `part_001`'s `processBooking` throws on every non-2xx
response and `processBookingWithRetry` retries every thrown error: a sink
always answering HTTP 400 yields 3 attempts instead of 1. -/
theorem c5_counterexample :
    (processBookingWithRetry devConfig (fun _ => 400) 3 exampleB1 freshWorker).2.attempts
      = 3 ∧
    ¬(processBookingWithRetry devConfig (fun _ => 400) 3 exampleB1 freshWorker).2.attempts
      = 1 := ⟨by decide, by decide⟩

/-- Claim C7: within a record's lifecycle the operations are sequential
(filter, mark, deliver, mutate-or-unmark): the dedup entry is inserted
before the HTTP send begins — the event trace starts with `mark` and only
then `post` — and it acts as a mutual-exclusion gate, so delivering the
same eligible record a second time while the entry remains marked
produces no further POST: the duplicate notification is filtered out and
the total stays at one downstream POST. -/
theorem c7_mark_before_send (cfg : Config) (sink : Nat → Nat) (maxRetries : Nat)
    (b : Booking) (st : DeliveryState)
    (helig : shouldProcessBooking st.cache (some b) = Decision.eligible)
    (hok : is2xx (sink 0) = true) :
    countPosts (handleNotification cfg sink maxRetries (some b) st).2 = 1 ∧
    (∃ tail, (handleNotification cfg sink maxRetries (some b) st).2 =
      Event.mark b.bookingId :: Event.post (cleanedBooking b) 0 :: tail) ∧
    b.bookingId ∈ (handleNotification cfg sink maxRetries (some b) st).1.cache ∧
    handleNotification cfg sink maxRetries (some b)
        ((handleNotification cfg sink maxRetries (some b) st).1) =
      ((handleNotification cfg sink maxRetries (some b) st).1, []) := by
  obtain ⟨hid, hmem, hstat⟩ := (shouldProcessBooking_eligible_iff st.cache b).mp helig
  have hrun : handleNotification cfg sink maxRetries (some b) st =
      sendToLaravelAndDelete cfg sink maxRetries b st := by
    simp only [handleNotification]
    rw [if_pos helig]
  rw [hrun]
  cases hp : cfg.isProduction || cfg.deleteOverride
  · have hsend : sendToLaravelAndDelete cfg sink maxRetries b st =
        ({ st with cache := addMark b.bookingId st.cache, totalProcessedCount := st.totalProcessedCount + 1 },
          [Event.mark b.bookingId, Event.post (cleanedBooking b) 0]) := by
      show runSend cfg sink maxRetries b (maxRetries + 1) 0 st = _
      simp only [runSend]
      rw [hok, if_pos rfl, hp, if_neg Bool.false_ne_true]
    rw [hsend]
    have hdup : shouldProcessBooking (addMark b.bookingId st.cache) (some b) =
        Decision.alreadyProcessed :=
      shouldProcessBooking_of_mem hid (mem_addMark_self _ _)
    refine ⟨by rw [countPosts_cons_mark, countPosts_cons_post]; simp [countPosts],
      ⟨[], rfl⟩, mem_addMark_self _ _, ?_⟩
    simp only [handleNotification]
    rw [if_neg (by simp [hdup])]
  · have hsend : sendToLaravelAndDelete cfg sink maxRetries b st =
        ({ st with cache := addMark b.bookingId st.cache, storePresent := false, totalProcessedCount := st.totalProcessedCount + 1 },
          [Event.mark b.bookingId, Event.post (cleanedBooking b) 0,
            Event.deleteRecord b.bookingId]) := by
      show runSend cfg sink maxRetries b (maxRetries + 1) 0 st = _
      simp only [runSend]
      rw [hok, if_pos rfl, hp, if_pos rfl]
    rw [hsend]
    have hdup : shouldProcessBooking (addMark b.bookingId st.cache) (some b) =
        Decision.alreadyProcessed :=
      shouldProcessBooking_of_mem hid (mem_addMark_self _ _)
    refine ⟨by rw [countPosts_cons_mark, countPosts_cons_post]; simp [countPosts],
      ⟨[Event.deleteRecord b.bookingId], rfl⟩, mem_addMark_self _ _, ?_⟩
    simp only [handleNotification]
    rw [if_neg (by simp [hdup])]

theorem c7_mark_before_send_witness :
    countPosts (handleNotification devConfig (fun _ => 200) 3 (some exampleB1)
      freshDelivery).2 = 1 ∧
    handleNotification devConfig (fun _ => 200) 3 (some exampleB1)
        ((handleNotification devConfig (fun _ => 200) 3 (some exampleB1) freshDelivery).1) =
      ((handleNotification devConfig (fun _ => 200) 3 (some exampleB1) freshDelivery).1, []) := by
  have h := c7_mark_before_send devConfig (fun _ => 200) 3 exampleB1 freshDelivery
    (by decide) rfl
  exact ⟨h.1, h.2.2.2⟩

end DbMiddleware
